import Mathlib

/-!
Shallow embedding of the cortexd daemon core (cortexlinux/cortex) for
specification checking: the lock-free rate limiter, the IPC server
client-handling and shutdown paths, the SQLite-backed alert store, the
system monitor threshold evaluation and smart-alert emission, and the
alert manager deduplicating `create` (modelled from the specification,
since `alert_manager.cpp` is not part of the provided sources).

Machine integers are modelled as `Int`/`Nat`; wall-clock and monotonic
instants as `Int` counts of the unit noted at each definition.  Floating
point percentages are modelled over `ℚ`, which is exact for the guarded
zero cases the claims are about.
-/

namespace Cortexd

/-- Alert severities, in the declaration order of the C++ enum
(`INFO, WARNING, ERROR, CRITICAL`). -/
inductive AlertSeverity where
  | INFO
  | WARNING
  | ERROR
  | CRITICAL
deriving DecidableEq, Repr

/-- Alert types, in the declaration order given by the data model
(`SYSTEM, DISK_USAGE, MEMORY_USAGE, CPU_USAGE, SECURITY_UPDATE,
CVE_FOUND, AI_ANALYSIS`). -/
inductive AlertType where
  | SYSTEM
  | DISK_USAGE
  | MEMORY_USAGE
  | CPU_USAGE
  | SECURITY_UPDATE
  | CVE_FOUND
  | AI_ANALYSIS
deriving DecidableEq, Repr

/-- The integer value `static_cast<int>(severity)` used by the store. -/
def sevToInt : AlertSeverity → Int
  | .INFO => 0
  | .WARNING => 1
  | .ERROR => 2
  | .CRITICAL => 3

/-- The enum value recovered by `static_cast<AlertSeverity>(int)` when the
store reads a row back (defined on the values the store writes). -/
def intToSev : Int → AlertSeverity
  | 1 => .WARNING
  | 2 => .ERROR
  | 3 => .CRITICAL
  | _ => .INFO

/-- The integer value `static_cast<int>(type)` used by the store. -/
def typeToInt : AlertType → Int
  | .SYSTEM => 0
  | .DISK_USAGE => 1
  | .MEMORY_USAGE => 2
  | .CPU_USAGE => 3
  | .SECURITY_UPDATE => 4
  | .CVE_FOUND => 5
  | .AI_ANALYSIS => 6

/-- The enum value recovered by `static_cast<AlertType>(int)` on read-back. -/
def intToType : Int → AlertType
  | 1 => .DISK_USAGE
  | 2 => .MEMORY_USAGE
  | 3 => .CPU_USAGE
  | 4 => .SECURITY_UPDATE
  | 5 => .CVE_FOUND
  | 6 => .AI_ANALYSIS
  | _ => .SYSTEM

/-! ## RateLimiter (src/daemon/src/ipc/server.cpp, lines 20-88)

State is `max_per_second_`, the atomic `count_` and the atomic
`window_start_rep_` (a `steady_clock` instant; we count milliseconds so the
reset test `elapsed.count() >= 1000` is literal).  `allow()` is embedded as
a sequential state transformer: the CAS loops of the source serialise each
call, and the claims quantify over call sequences. -/

structure RateLimiter where
  max_per_second : Int
  count : Int
  window_start_ms : Int
deriving DecidableEq, Repr

/-- One call to `RateLimiter::allow()` observed at monotonic instant
`now_ms`: reset the window when at least 1000 ms have elapsed, then admit
if and only if the running count is below `max_per_second_`, incrementing
only on admission. -/
def RateLimiter.allow (rl : RateLimiter) (now_ms : Int) : Bool × RateLimiter :=
  let rl' :=
    if now_ms - rl.window_start_ms ≥ 1000 then
      { rl with window_start_ms := now_ms, count := 0 }
    else
      rl
  if rl'.count ≥ rl'.max_per_second then
    (false, rl')
  else
    (true, { rl' with count := rl'.count + 1 })

/-- Run a sequence of `allow()` calls at the given observation instants,
returning the number of calls that returned `true` and the final state. -/
def RateLimiter.allowRun (rl : RateLimiter) : List Int → Nat × RateLimiter
  | [] => (0, rl)
  | t :: ts =>
      let step := rl.allow t
      let rest := step.2.allowRun ts
      ((if step.1 then 1 else 0) + rest.1, rest.2)

/-! ## Collector value structs (headers memory_monitor.h, disk_monitor.h)

Byte counts are `uint64_t`; percentages are computed in `double`.  We model
the byte fields as `Nat` and the percentage as an exact rational: the
claims concern only the `total_bytes == 0` guard, where the C++ function
returns the literal `0.0` before any division. -/

structure MemoryStats where
  total_bytes : Nat
  available_bytes : Nat
  used_bytes : Nat
  buffers_bytes : Nat
  cached_bytes : Nat
  swap_total_bytes : Nat
  swap_used_bytes : Nat
deriving Repr

/-- All-zero `MemoryStats`, the value a failed collector returns. -/
def MemoryStats.zeroed : MemoryStats :=
  ⟨0, 0, 0, 0, 0, 0, 0⟩

/-- Embedding of `MemoryStats::usage_percent`: `0.0` when `total_bytes` is
zero, otherwise `(total_bytes - available_bytes) / total_bytes * 100`; the
subtraction is the wrapping `uint64_t` difference of the source. -/
def MemoryStats.usage_percent (m : MemoryStats) : ℚ :=
  if m.total_bytes = 0 then 0
  else (((m.total_bytes + 2 ^ 64 - m.available_bytes) % 2 ^ 64 : Nat) : ℚ)
        / (m.total_bytes : ℚ) * 100

structure DiskStats where
  mount_point : String
  device : String
  filesystem : String
  total_bytes : Nat
  available_bytes : Nat
  used_bytes : Nat
deriving Repr

/-- All-zero `DiskStats`, the value a failed collector returns. -/
def DiskStats.zeroed : DiskStats :=
  ⟨"", "", "", 0, 0, 0⟩

/-- Embedding of `DiskStats::usage_percent`: `0.0` when `total_bytes` is
zero, otherwise `used_bytes / total_bytes * 100`. -/
def DiskStats.usage_percent (d : DiskStats) : ℚ :=
  if d.total_bytes = 0 then 0
  else (d.used_bytes : ℚ) / (d.total_bytes : ℚ) * 100

/-! ## Alert data model (alert_manager.h) and AlertStore
(src/daemon/src/alerts/alert_store.cpp)

`TimePoint` is embedded as `Int` seconds since the epoch: the store
converts every instant through `Clock::to_time_t` (whole seconds) on
write and `Clock::from_time_t` on read, so seconds are the granularity at
which the store claims are stated.  The default-constructed `TimePoint`
(the epoch) is `0`.

Metadata is a `std::map<std::string, std::string>`, embedded as an
association list.  The serialised JSON column is embedded abstractly:
`MetaCol.json m` stands for the dump of a string-to-string map `m` (which
the JSON library parses back to `m`), and `MetaCol.malformed s` stands
for any column text whose parse throws. -/

structure Alert where
  id : String
  timestamp : Int
  severity : AlertSeverity
  type : AlertType
  title : String
  message : String
  metadata : List (String × String)
  acknowledged : Bool
  resolved : Bool
  acknowledged_at : Int
  resolved_at : Int
  resolution : String
deriving DecidableEq, Repr

/-- Serialised metadata column: either well-formed JSON dumped from a
string-to-string map, or text that fails to parse. -/
inductive MetaCol where
  | json (m : List (String × String))
  | malformed (s : String)
deriving DecidableEq, Repr

/-- One row of the `alerts` table, in the stored column types: enums as
`INTEGER`, flags as `INTEGER` 0/1, instants as `INTEGER` seconds. -/
structure StoredRow where
  id : String
  timestamp : Int
  severity : Int
  type : Int
  title : String
  message : String
  metadata : MetaCol
  acknowledged : Int
  resolved : Int
  acknowledged_at : Int
  resolved_at : Int
  resolution : String
deriving DecidableEq, Repr

/-- The row `AlertStore::insert` binds for an alert: `acknowledged_at` and
`resolved_at` are stored as `0` whenever the corresponding flag is false
(lines 90-91 of alert_store.cpp). -/
def insertRow (a : Alert) : StoredRow :=
  { id := a.id
    timestamp := a.timestamp
    severity := sevToInt a.severity
    type := typeToInt a.type
    title := a.title
    message := a.message
    metadata := MetaCol.json a.metadata
    acknowledged := if a.acknowledged then 1 else 0
    resolved := if a.resolved then 1 else 0
    acknowledged_at := if a.acknowledged then a.acknowledged_at else 0
    resolved_at := if a.resolved then a.resolved_at else 0
    resolution := a.resolution }

/-- The alerts database: the list of rows of the `alerts` table. -/
abbrev AlertDB := List StoredRow

/-- Embedding of `AlertStore::insert`: the `INSERT` succeeds
(`sqlite3_step` returns `SQLITE_DONE`) unless the `id` primary key is
already present, in which case the constraint fails and `insert` returns
`false` leaving the table unchanged. -/
def AlertStore.insert (a : Alert) (db : AlertDB) : Bool × AlertDB :=
  if (db.filter (fun r => r.id = a.id)).isEmpty then
    (true, insertRow a :: db)
  else
    (false, db)

/-- Embedding of `AlertStore::row_to_alert` (lines 302-344): enums are
cast back from their integer columns, malformed metadata JSON is swallowed
leaving empty metadata, the flags are `column != 0`, and the `*_at`
instants are taken only when the stored value is strictly positive,
otherwise left at the default epoch. -/
def rowToAlert (r : StoredRow) : Alert :=
  { id := r.id
    timestamp := r.timestamp
    severity := intToSev r.severity
    type := intToType r.type
    title := r.title
    message := r.message
    metadata := match r.metadata with
      | MetaCol.json m => m
      | MetaCol.malformed _ => []
    acknowledged := r.acknowledged ≠ 0
    resolved := r.resolved ≠ 0
    acknowledged_at := if r.acknowledged_at > 0 then r.acknowledged_at else 0
    resolved_at := if r.resolved_at > 0 then r.resolved_at else 0
    resolution := r.resolution }

/-- Embedding of `AlertStore::get`: `SELECT * FROM alerts WHERE id = ?`
converted through `row_to_alert`, `none` when no row matches. -/
def AlertStore.get (id : String) (db : AlertDB) : Option Alert :=
  (db.find? (fun r => r.id = id)).map rowToAlert

/-- Embedding of `AlertStore::cleanup_before`:
`DELETE FROM alerts WHERE timestamp < ? AND resolved = 1`, returning
`sqlite3_changes`, the number of rows the statement deleted.  The rows are
processed one by one to mirror the row-wise `DELETE`. -/
def AlertStore.cleanupBefore (cutoff : Int) : AlertDB → Nat × AlertDB
  | [] => (0, [])
  | r :: rest =>
      let tail := AlertStore.cleanupBefore cutoff rest
      if r.timestamp < cutoff ∧ r.resolved = 1 then
        (tail.1 + 1, tail.2)
      else
        (tail.1, r :: tail.2)

/-- Embedding of `AlertStore::count_active`:
`SELECT COUNT(*) FROM alerts WHERE acknowledged = 0`. -/
def AlertStore.countActive (db : AlertDB) : Nat :=
  (db.filter (fun r => r.acknowledged = 0)).length

/-! ## IPC server (src/daemon/src/ipc/server.cpp)

`protocol.h` is not among the provided sources, so error codes are kept
symbolic; the server only ever touches the constructors listed in the
specification.  `handle_client` and `dispatch` are embedded as
deterministic trace builders over an input describing the single
connection: the bytes `recv` returned, the rate limiter verdict, the parse
result, the handler lookup, and whether the invoked code throws. -/

inductive ErrorCode where
  | PARSE_ERROR
  | INVALID_PARAMS
  | METHOD_NOT_FOUND
  | INTERNAL_ERROR
  | RATE_LIMITED
  | ALERT_NOT_FOUND
  | LLM_NOT_LOADED
  | CONFIG_ERROR
deriving DecidableEq, Repr

/-- A response as the server sees it: success with data, or an error with
a message and a code. -/
inductive Response where
  | ok (data : String)
  | err (message : String) (code : ErrorCode)
deriving DecidableEq, Repr

/-- Observable actions of `handle_client`/`dispatch`, in program order:
counter increment and decrement under `connections_mutex_`, drain-condition
notification, the single `recv`, the parse attempt
(`Request::parse`), handler invocation, response send, and `close`. -/
inductive Event where
  | incCounter
  | decCounter
  | notifyDrain
  | recvCall
  | parseAttempt
  | invokeHandler (method : String)
  | sendResponse (r : Response)
  | closeFd
deriving DecidableEq, Repr

/-- What the registered handler for a method does when invoked. -/
inductive HandlerBehavior where
  | returns (r : Response)
  | throws (what : String)
deriving DecidableEq, Repr

/-- The environment of one `handle_client` call: the result of the single
`recv`, the rate-limiter verdict, the outcome of `Request::parse`, the
handler registry lookup for the parsed method, and whether the body of the
`try` block throws at some other point (buffer handling, `to_json`, ...),
with the exception text. -/
structure ClientInput where
  recvBytes : Int
  rateAllowed : Bool
  parsed : Option String
  handlerFor : String → Option HandlerBehavior
  bodyThrows : Option String

/-- Embedding of `IPCServer::dispatch` (lines 360-386): look the handler up
under the shared lock, returning `METHOD_NOT_FOUND` when absent; invoke the
copied handler outside the lock; a handler exception is caught and turned
into an `INTERNAL_ERROR` response carrying the exception text.  Returns the
events of the dispatch and its response. -/
def dispatch (inp : ClientInput) (method : String) : List Event × Response :=
  match inp.handlerFor method with
  | none =>
      ([], Response.err ("Method not found: " ++ method) ErrorCode.METHOD_NOT_FOUND)
  | some (HandlerBehavior.returns r) =>
      ([Event.invokeHandler method], r)
  | some (HandlerBehavior.throws what) =>
      ([Event.invokeHandler method], Response.err what ErrorCode.INTERNAL_ERROR)

/-- Embedding of `IPCServer::handle_client` (lines 284-358) as its ordered
event trace.  The counter is incremented on entry; an empty or failed read
closes and leaves; a rate-limit denial sends `RATE_LIMITED` and closes; an
unparsable request sends `PARSE_ERROR`; otherwise the request is
dispatched; an exception escaping the `try` block is answered with
`INTERNAL_ERROR`; every path closes the descriptor, decrements the counter
and notifies the drain condition. -/
def handleClient (inp : ClientInput) : List Event :=
  [Event.incCounter] ++
  (match inp.bodyThrows with
   | some what =>
       [Event.recvCall,
        Event.sendResponse (Response.err what ErrorCode.INTERNAL_ERROR),
        Event.closeFd, Event.decCounter, Event.notifyDrain]
   | none =>
       [Event.recvCall] ++
       (if inp.recvBytes ≤ 0 then
          [Event.closeFd, Event.decCounter, Event.notifyDrain]
        else if ¬ inp.rateAllowed then
          [Event.sendResponse
             (Response.err "Rate limit exceeded" ErrorCode.RATE_LIMITED),
           Event.closeFd, Event.decCounter, Event.notifyDrain]
        else
          [Event.parseAttempt] ++
          (match inp.parsed with
           | none =>
               [Event.sendResponse
                  (Response.err "Invalid request format" ErrorCode.PARSE_ERROR)]
           | some method =>
               let d := dispatch inp method
               d.1 ++ [Event.sendResponse d.2]) ++
          [Event.closeFd, Event.decCounter, Event.notifyDrain]))

/-- Net effect of a trace on `active_connections_`. -/
def counterDelta : List Event → Int
  | [] => 0
  | Event.incCounter :: es => counterDelta es + 1
  | Event.decCounter :: es => counterDelta es - 1
  | _ :: es => counterDelta es

/-! ### IPCServer::stop (lines 117-148)

`stop` is embedded as a step sequence over the server state.  The drain
wait (`connections_cv_.wait` until `active_connections_ == 0`) is modelled
by consuming a list of decrement events, each the completion of one
in-flight handler; if the events run out before the counter reaches zero
the wait never returns and `stop` does not return (`none`). -/

inductive StopAction where
  | setRunningFalse
  | shutdownListenFd
  | joinAcceptThread
  | waitForDrain
  | closeListenFd
  | unlinkSocketFile
deriving DecidableEq, Repr

structure ServerState where
  running : Bool
  serverFd : Int
  activeConnections : Nat
deriving DecidableEq, Repr

/-- The drain wait: block until the in-flight counter is zero, consuming
one completion event per decrement.  Returns the counter value observed
when the wait returns, or `none` when it never returns. -/
def drainWait : Nat → List Unit → Option Nat
  | 0, _ => some 0
  | _ + 1, [] => none
  | n + 1, _ :: evs => drainWait n evs

/-- Result of a completed `stop()`: the ordered actions it performed and
the in-flight counter at the moment it proceeded to `cleanup_socket`. -/
structure StopResult where
  actions : List StopAction
  connsAtCleanup : Nat
deriving DecidableEq, Repr

/-- Embedding of `IPCServer::stop`: an early return when not running;
otherwise clear `running_`, shut down the listening socket (when open) to
unblock `accept`, join the accept worker, wait on the drain condition
until `active_connections_` is zero, and only then close the socket and
unlink the socket file.  `completions` are the handler completions that
arrive while the drain wait blocks. -/
def IPCServer.stop (s : ServerState) (completions : List Unit) :
    Option StopResult :=
  if ¬ s.running then
    some { actions := [], connsAtCleanup := s.activeConnections }
  else
    match drainWait s.activeConnections completions with
    | none => none
    | some c =>
        some
          { actions :=
              [StopAction.setRunningFalse] ++
              (if s.serverFd ≠ -1 then [StopAction.shutdownListenFd] else []) ++
              [StopAction.joinAcceptThread, StopAction.waitForDrain,
               StopAction.closeListenFd, StopAction.unlinkSocketFile]
            connsAtCleanup := c }

/-! ## SystemMonitor (src/daemon/src/monitor/system_monitor.cpp)

The LLM engine appears only through the null check on `llm_engine_` and
`is_loaded()`.  `create_smart_alert` and the security-updates block of
`check_thresholds` are embedded as builders of the calls and events they
perform; the id returned by `alert_manager_->create` is an input. -/

structure LLMEnv where
  present : Bool
  loaded : Bool
deriving DecidableEq, Repr

/-- Arguments of one `AlertManager::create` call. -/
structure CreateCall where
  severity : AlertSeverity
  type : AlertType
  title : String
  message : String
  metadata : List (String × String)
deriving DecidableEq, Repr

/-- Actions a monitor path can perform against its collaborators. -/
inductive MonitorEvent where
  | createAlert (c : CreateCall)
  | inferSync (prompt : String)
deriving DecidableEq, Repr

def MonitorEvent.isInferSync : MonitorEvent → Bool
  | MonitorEvent.inferSync _ => true
  | _ => false

/-- Insert-or-assign on a `std::map<std::string, std::string>` kept in key
order, as `metadata_copy["ai_enhanced"] = "pending"` does.  Keys are
compared lexicographically on their character data, the order
the comparison on `std::string` induces. -/
def mapSet : List (String × String) → String → String → List (String × String)
  | [], k, v => [(k, v)]
  | (k', v') :: rest, k, v =>
      if k.data < k'.data then (k, v) :: (k', v') :: rest
      else if k = k' then (k, v) :: rest
      else (k', v') :: mapSet rest k v

/-- Result of `SystemMonitor::create_smart_alert`: the synchronous primary
`create` call, whether the detached analysis thread was spawned, and the
ordered actions that thread performs. -/
structure SmartAlertResult where
  primary : CreateCall
  launched : Bool
  background : List MonitorEvent
deriving DecidableEq, Repr

/-- Embedding of `SystemMonitor::create_smart_alert` (lines 393-454).  The
primary alert is created synchronously with `ai_enhanced = "pending"`
added to its metadata; the detached background thread is spawned unless
the returned id is empty, the engine pointer is null, or the engine is not
loaded; the thread builds the secondary metadata
(`parent_alert_id`, `ai_enhanced = "true"`, `analysis_context`) and calls
`create` with type `AI_ANALYSIS` and severity `INFO` — it performs no
inference call. -/
def createSmartAlert (env : LLMEnv) (createdId : String)
    (severity : AlertSeverity) (type : AlertType)
    (title basicMessage aiContext : String)
    (metadata : List (String × String)) : SmartAlertResult :=
  let md := mapSet metadata "ai_enhanced" "pending"
  let primary : CreateCall :=
    { severity := severity, type := type, title := title,
      message := basicMessage, metadata := md }
  if createdId = "" ∨ env.present = false ∨ env.loaded = false then
    { primary := primary, launched := false, background := [] }
  else
    let aiMd :=
      mapSet (mapSet (mapSet [] "parent_alert_id" createdId)
        "ai_enhanced" "true") "analysis_context" aiContext
    let aiTitle := "AI analysis: " ++ title
    let aiMessage := "Automated analysis for alert: " ++ createdId.take 8 ++
      "\n\nContext analyzed:\n" ++ aiContext
    { primary := primary
      launched := true
      background :=
        [MonitorEvent.createAlert
          { severity := AlertSeverity.INFO, type := AlertType.AI_ANALYSIS,
            title := aiTitle, message := aiMessage, metadata := aiMd }] }

/-- The per-type analysis prompt of `SystemMonitor::generate_ai_alert`
(lines 339-369). -/
def aiPromptFor (t : AlertType) (context : String) : String :=
  match t with
  | AlertType.DISK_USAGE =>
      "You are a Linux system administrator assistant. Analyze this disk usage alert and provide a brief, actionable response (2-3 sentences max).\n\n" ++
      "Context: " ++ context ++ "\n\n" ++
      "Provide practical suggestions to free disk space. Be specific and concise."
  | AlertType.MEMORY_USAGE =>
      "You are a Linux system administrator assistant. Analyze this memory usage alert and provide a brief, actionable response (2-3 sentences max).\n\n" ++
      "Context: " ++ context ++ "\n\n" ++
      "Suggest how to identify memory-hungry processes and potential fixes. Be specific and concise."
  | AlertType.SECURITY_UPDATE =>
      "You are a Linux security assistant. Analyze these pending security updates and provide a brief, actionable response (2-3 sentences max).\n\n" ++
      "Context: " ++ context ++ "\n\n" ++
      "Assess the urgency and recommend whether to update immediately. Be specific and concise."
  | AlertType.CVE_FOUND =>
      "You are a Linux security assistant. Analyze this CVE alert and provide a brief, actionable response (2-3 sentences max).\n\n" ++
      "Context: " ++ context ++ "\n\n" ++
      "Explain the risk and recommended mitigation. Be specific and concise."
  | _ =>
      "You are a Linux system administrator assistant. Analyze this system alert and provide a brief, actionable response (2-3 sentences max).\n\n" ++
      "Context: " ++ context ++ "\n\n" ++
      "Provide practical recommendations. Be specific and concise."

/-- Outcome of the engine call `infer_sync`. -/
structure InferenceResult where
  success : Bool
  output : String
  error : String
  time_ms : Int
deriving DecidableEq, Repr

/-- Embedding of `SystemMonitor::generate_ai_alert` (lines 328-391): empty
result unless AI alerts are enabled and the engine is present and loaded;
otherwise one `infer_sync` call on the per-type prompt, whose output is
returned only when the call succeeded with non-empty output.  This is the
only inference path in the monitor, and `create_smart_alert` never invokes
it. -/
def generateAiAlert (enableAiAlerts : Bool) (env : LLMEnv) (t : AlertType)
    (context : String) (result : InferenceResult) :
    List MonitorEvent × String :=
  if enableAiAlerts = false ∨ env.present = false ∨ env.loaded = false then
    ([], "")
  else
    ([MonitorEvent.inferSync (aiPromptFor t context)],
     if result.success = true ∧ result.output ≠ "" then result.output else "")

/-- One upgradable package as parsed by the APT monitor
(apt_monitor.h). -/
structure PackageUpdate where
  name : String
  current_version : String
  available_version : String
  source : String
  is_security : Bool
deriving DecidableEq, Repr

/-- Embedding of `PackageUpdate::to_string`. -/
def PackageUpdate.toStr (u : PackageUpdate) : String :=
  u.name ++ " " ++ u.current_version ++ " -> " ++ u.available_version

/-- The enumeration loop of the security-updates block
(system_monitor.cpp lines 304-310): append an entry for each cached update
that is a security update while fewer than 5 have been listed.  The
running `update_list +=` accumulation of the source is rendered as the
equivalent right recursion.  Returns the listed text and the final
`count`. -/
def updateListLoop : List PackageUpdate → Nat → String × Nat
  | [], count => ("", count)
  | u :: rest, count =>
      if u.is_security = true ∧ count < 5 then
        let t := updateListLoop rest (count + 1)
        ("- " ++ u.toStr ++ "\n" ++ t.1, t.2)
      else
        updateListLoop rest count

/-- One invocation of `create_smart_alert` as issued by
`check_thresholds`. -/
structure SmartCall where
  severity : AlertSeverity
  type : AlertType
  title : String
  message : String
  aiContext : String
  metadata : List (String × String)
deriving DecidableEq, Repr

/-- Embedding of the security-updates block of
`SystemMonitor::check_thresholds` (lines 299-325), which runs on every
pass independently of the disk and memory branches: when
`security_updates > 0`, enumerate the cached updates (at most 5, with an
`"... and N more"` tail when fewer were listed than the count), put the
enumeration into the AI context string, and call `create_smart_alert`
with severity WARNING, type SECURITY_UPDATE and metadata holding only the
count. -/
def checkThresholdsSecurity (securityUpdates : Int)
    (updates : List PackageUpdate) : List SmartCall :=
  if securityUpdates > 0 then
    let loop := updateListLoop updates 0
    let updateList :=
      if (loop.2 : Int) < securityUpdates then
        loop.1 ++ "... and " ++ toString (securityUpdates - (loop.2 : Int)) ++
          " more\n"
      else
        loop.1
    let context := toString securityUpdates ++
      " security updates available:\n" ++ updateList
    [{ severity := AlertSeverity.WARNING
       type := AlertType.SECURITY_UPDATE
       title := "Security updates available"
       message := toString securityUpdates ++ " security update(s) available"
       aiContext := context
       metadata := [("count", toString securityUpdates)] }]
  else
    []

/-! ## AlertManager.create (modelled from the specification)

The sources provide `alert_manager.h` but no `alert_manager.cpp`; the
deduplicating `create` is therefore modelled from spec sections 4.3 and 3.
The in-memory dedup map `recent_alerts_ : key → last_seen_instant` is
extended with the issued id per key, since the spec requires `create` to
return the existing alert id on a dedup hit. -/

/-- Modelled from the spec: the stable dedup key over
`(severity, type, title)` of section 3 (`DedupKey`), standing in for the
hash computed by the missing `AlertManager::get_alert_hash`.  The claims
need only that equal triples map to equal keys. -/
def dedupKey (sev : AlertSeverity) (ty : AlertType) (title : String) :
    String :=
  toString (sevToInt sev) ++ "|" ++ toString (typeToInt ty) ++ "|" ++ title

/-- The 5-minute dedup window of `alert_manager.h` line 185, in seconds. -/
def dedupWindowSec : Int := 300

/-- Modelled from the spec: the manager state the missing
`alert_manager.cpp` maintains — the owned store and the dedup map, each
entry carrying its key, last-seen instant and the id issued for it. -/
structure ManagerState where
  db : AlertDB
  recent : List (String × Int × String)

/-- Result of one `AlertManager::create` call: the returned id, the new
manager state, and the alerts passed to registered callbacks. -/
structure CreateOutcome where
  id : String
  state : ManagerState
  fired : List Alert

/-- Modelled from the spec: `AlertManager::create`, whose implementation is
not among the provided sources.  Following section 4.3: evict dedup
entries older than the window, then if the key is present return the
existing alert id without inserting a row or firing callbacks; otherwise
record the key with the current instant, insert the new active alert and
fire every callback with it.  `now` is the creation instant and `newId`
the freshly generated id. -/
def AlertManager.create (st : ManagerState) (now : Int) (newId : String)
    (sev : AlertSeverity) (ty : AlertType) (title message : String)
    (metadata : List (String × String)) : CreateOutcome :=
  let key := dedupKey sev ty title
  let recent' := st.recent.filter (fun e => now - e.2.1 ≤ dedupWindowSec)
  match recent'.find? (fun e => e.1 = key) with
  | some e =>
      { id := e.2.2, state := { db := st.db, recent := recent' }, fired := [] }
  | none =>
      let a : Alert :=
        { id := newId, timestamp := now, severity := sev, type := ty,
          title := title, message := message, metadata := metadata,
          acknowledged := false, resolved := false,
          acknowledged_at := 0, resolved_at := 0, resolution := "" }
      let ins := AlertStore.insert a st.db
      { id := newId
        state := { db := ins.2, recent := (key, now, newId) :: recent' }
        fired := [a] }

/-! ## Auxiliary definitions used by the statements -/

/-- Number of `decCounter` events in a trace. -/
def countDec : List Event → Nat
  | [] => 0
  | Event.decCounter :: es => countDec es + 1
  | _ :: es => countDec es

/-- Number of `notifyDrain` events in a trace. -/
def countNotify : List Event → Nat
  | [] => 0
  | Event.notifyDrain :: es => countNotify es + 1
  | _ :: es => countNotify es

/-- Specification-side form of the enumeration text: one
`"- <name> <old> -> <new>\n"` line per listed package. -/
def enumConcat : List PackageUpdate → String
  | [] => ""
  | u :: rest => "- " ++ u.toStr ++ "\n" ++ enumConcat rest

/-- A concrete cache of seven security updates. -/
def exUpdates : List PackageUpdate :=
  [⟨"pkg1", "1", "2", "jammy-security", true⟩,
   ⟨"pkg2", "1", "2", "jammy-security", true⟩,
   ⟨"pkg3", "1", "2", "jammy-security", true⟩,
   ⟨"pkg4", "1", "2", "jammy-security", true⟩,
   ⟨"pkg5", "1", "2", "jammy-security", true⟩,
   ⟨"pkg6", "1", "2", "jammy-security", true⟩,
   ⟨"pkg7", "1", "2", "jammy-security", true⟩]

/-- The enumerated update list the source builds for `exUpdates` with
`security_updates = 7`: the first five entries and the two-more tail. -/
def exEnum : String :=
  "- pkg1 1 -> 2\n- pkg2 1 -> 2\n- pkg3 1 -> 2\n- pkg4 1 -> 2\n- pkg5 1 -> 2\n" ++
  "... and 2 more\n"

/-- The single `create_smart_alert` invocation the security block issues
for `exUpdates` with `security_updates = 7`. -/
def exCall : SmartCall :=
  { severity := AlertSeverity.WARNING
    type := AlertType.SECURITY_UPDATE
    title := "Security updates available"
    message := "7 security update(s) available"
    aiContext := "7 security updates available:\n" ++ exEnum
    metadata := [("count", "7")] }

/-- A concrete `create_smart_alert` result with the engine loaded. -/
def exSmartBg : SmartAlertResult :=
  createSmartAlert ⟨true, true⟩ "aabbccddeeff0011"
    AlertSeverity.CRITICAL AlertType.DISK_USAGE
    "Critical disk usage"
    "Disk usage is at 96% on root filesystem"
    "Disk usage: 96%, Used: 480GB / 500GB total"
    [("usage_percent", "96.000000")]

/-- The secondary alert the detached thread of `exSmartBg` creates. -/
def exSecondary : CreateCall :=
  { severity := AlertSeverity.INFO
    type := AlertType.AI_ANALYSIS
    title := "AI analysis: Critical disk usage"
    message := "Automated analysis for alert: aabbccdd\n\nContext analyzed:\n" ++
      "Disk usage: 96%, Used: 480GB / 500GB total"
    metadata :=
      [("ai_enhanced", "true"),
       ("analysis_context", "Disk usage: 96%, Used: 480GB / 500GB total"),
       ("parent_alert_id", "aabbccddeeff0011")] }

/-- A concrete alert with `acknowledged = false` but a nonzero
`acknowledged_at` instant. -/
def exAlert : Alert :=
  { id := "alert-1", timestamp := 100, severity := AlertSeverity.INFO,
    type := AlertType.SYSTEM, title := "t", message := "m", metadata := [],
    acknowledged := false, resolved := false,
    acknowledged_at := 5, resolved_at := 0, resolution := "" }

/-! ## Helper lemmas -/

theorem intToSev_sevToInt (s : AlertSeverity) : intToSev (sevToInt s) = s := by
  cases s <;> rfl

theorem intToType_typeToInt (t : AlertType) : intToType (typeToInt t) = t := by
  cases t <;> rfl

theorem countDec_append (a b : List Event) :
    countDec (a ++ b) = countDec a + countDec b := by
  induction a with
  | nil => simp [countDec]
  | cons e es ih =>
      cases e <;> (simp [countDec, ih]; try omega)

theorem countNotify_append (a b : List Event) :
    countNotify (a ++ b) = countNotify a + countNotify b := by
  induction a with
  | nil => simp [countNotify]
  | cons e es ih =>
      cases e <;> (simp [countNotify, ih]; try omega)

theorem counterDelta_append (a b : List Event) :
    counterDelta (a ++ b) = counterDelta a + counterDelta b := by
  induction a with
  | nil => simp [counterDelta]
  | cons e es ih =>
      cases e <;> (simp [counterDelta, ih]; try omega)

theorem drainWait_zero :
    ∀ (n : Nat) (evs : List Unit) (c : Nat), drainWait n evs = some c → c = 0
  | 0, evs, c, h => by
      simp [drainWait] at h
      omega
  | n + 1, [], c, h => by
      simp [drainWait] at h
  | n + 1, _ :: evs, c, h => drainWait_zero n evs c h

/-! ## Claim theorems -/

/-- C10: `MemoryStats::usage_percent` and `DiskStats::usage_percent`
return 0 whenever `total_bytes` is 0, so the percentage computation never
divides by zero even for the zeroed stats a failed collector returns. -/
theorem usage_percent_zero_guard :
    (∀ m : MemoryStats, m.total_bytes = 0 → m.usage_percent = 0) ∧
    (∀ d : DiskStats, d.total_bytes = 0 → d.usage_percent = 0) := by
  constructor
  · intro m h
    simp [MemoryStats.usage_percent, h]
  · intro d h
    simp [DiskStats.usage_percent, h]

/-- Witness for C10: both zeroed collector results report 0 percent. -/
theorem usage_percent_zero_guard_instance :
    MemoryStats.zeroed.usage_percent = 0 ∧ DiskStats.zeroed.usage_percent = 0 :=
  ⟨usage_percent_zero_guard.1 MemoryStats.zeroed rfl,
   usage_percent_zero_guard.2 DiskStats.zeroed rfl⟩

/-- C5: `AlertStore::cleanup_before(cutoff)` deletes exactly the rows with
`resolved = 1` and timestamp strictly before the cutoff, returns the
number of rows deleted, and keeps every row that is not resolved
regardless of its age. -/
theorem cleanupBefore_deletes_resolved_old :
    ∀ (cutoff : Int) (db : AlertDB),
      (AlertStore.cleanupBefore cutoff db).2 =
        db.filter (fun r => !(decide (r.timestamp < cutoff ∧ r.resolved = 1))) ∧
      (AlertStore.cleanupBefore cutoff db).1 =
        (db.filter (fun r => decide (r.timestamp < cutoff ∧ r.resolved = 1))).length ∧
      ∀ r ∈ db, r.resolved ≠ 1 → r ∈ (AlertStore.cleanupBefore cutoff db).2 := by
  intro cutoff db
  have key : (AlertStore.cleanupBefore cutoff db).2 =
        db.filter (fun r => !(decide (r.timestamp < cutoff ∧ r.resolved = 1))) ∧
      (AlertStore.cleanupBefore cutoff db).1 =
        (db.filter (fun r => decide (r.timestamp < cutoff ∧ r.resolved = 1))).length := by
    induction db with
    | nil => exact ⟨rfl, rfl⟩
    | cons r rest ih =>
        by_cases h : r.timestamp < cutoff ∧ r.resolved = 1
        · refine ⟨?_, ?_⟩ <;>
            simp [AlertStore.cleanupBefore, List.filter, h, ih.1, ih.2]
        · refine ⟨?_, ?_⟩ <;>
            simp [AlertStore.cleanupBefore, List.filter, h, ih.1, ih.2]
  refine ⟨key.1, key.2, ?_⟩
  intro r hmem hres
  rw [key.1]
  refine List.mem_filter.mpr ⟨hmem, ?_⟩
  simp [hres]

/-- Witness for C5 at a two-row table: the old resolved row is deleted
and counted, the even older unresolved row survives. -/
theorem cleanupBefore_instance :
    (AlertStore.cleanupBefore 50
        [⟨"a", 10, 0, 0, "", "", MetaCol.json [], 0, 1, 0, 0, ""⟩,
         ⟨"b", 5, 0, 0, "", "", MetaCol.json [], 0, 0, 0, 0, ""⟩]).2 =
      [⟨"b", 5, 0, 0, "", "", MetaCol.json [], 0, 0, 0, 0, ""⟩] ∧
    (AlertStore.cleanupBefore 50
        [⟨"a", 10, 0, 0, "", "", MetaCol.json [], 0, 1, 0, 0, ""⟩,
         ⟨"b", 5, 0, 0, "", "", MetaCol.json [], 0, 0, 0, 0, ""⟩]).1 = 1 ∧
    (⟨"b", 5, 0, 0, "", "", MetaCol.json [], 0, 0, 0, 0, ""⟩ : StoredRow) ∈
      (AlertStore.cleanupBefore 50
        [⟨"a", 10, 0, 0, "", "", MetaCol.json [], 0, 1, 0, 0, ""⟩,
         ⟨"b", 5, 0, 0, "", "", MetaCol.json [], 0, 0, 0, 0, ""⟩]).2 := by
  have h := cleanupBefore_deletes_resolved_old 50
    [⟨"a", 10, 0, 0, "", "", MetaCol.json [], 0, 1, 0, 0, ""⟩,
     ⟨"b", 5, 0, 0, "", "", MetaCol.json [], 0, 0, 0, 0, ""⟩]
  refine ⟨by rw [h.1]; decide, by rw [h.2.1]; decide, ?_⟩
  exact h.2.2 ⟨"b", 5, 0, 0, "", "", MetaCol.json [], 0, 0, 0, 0, ""⟩
    (by decide) (by decide)

/-- C9: every exit path of `IPCServer::handle_client` — empty or failed
read, rate-limit denial, normal response, and exception — decrements
`active_connections_` exactly once and notifies the drain condition
exactly once, so the trace of any single call leaves the counter where it
started. -/
theorem handleClient_counter_balanced :
    ∀ inp : ClientInput,
      countDec (handleClient inp) = 1 ∧
      countNotify (handleClient inp) = 1 ∧
      counterDelta (handleClient inp) = 0 := by
  intro inp
  unfold handleClient
  cases inp.bodyThrows with
  | some w =>
      refine ⟨?_, ?_, ?_⟩ <;> simp [countDec, countNotify, counterDelta]
  | none =>
      by_cases hb : inp.recvBytes ≤ 0
      · refine ⟨?_, ?_, ?_⟩ <;>
          simp [hb, countDec, countNotify, counterDelta]
      · by_cases hr : inp.rateAllowed
        · cases hp : inp.parsed with
          | none =>
              refine ⟨?_, ?_, ?_⟩ <;>
                simp [hb, hr, hp, countDec, countNotify, counterDelta,
                  countDec_append, countNotify_append, counterDelta_append]
          | some m =>
              have hd : countDec (dispatch inp m).1 = 0 ∧
                  countNotify (dispatch inp m).1 = 0 ∧
                  counterDelta (dispatch inp m).1 = 0 := by
                unfold dispatch
                cases inp.handlerFor m with
                | none => exact ⟨rfl, rfl, rfl⟩
                | some b =>
                    cases b <;> exact ⟨rfl, rfl, rfl⟩
              refine ⟨?_, ?_, ?_⟩ <;>
                simp [hb, hr, hp, countDec, countNotify, counterDelta,
                  countDec_append, countNotify_append, counterDelta_append,
                  hd.1, hd.2.1, hd.2.2]
        · refine ⟨?_, ?_, ?_⟩ <;>
            simp [hb, hr, countDec, countNotify, counterDelta]

/-- C8: when the server is running, a `stop()` that returns has performed,
in order, clearing of the running flag, shutdown of the open listening
socket, the accept-thread join, and the drain wait — and the in-flight
counter it observed when proceeding to close and unlink the socket is
zero. -/
theorem stop_waits_for_drain :
    ∀ (s : ServerState) (completions : List Unit) (out : StopResult),
      s.running = true →
      IPCServer.stop s completions = some out →
      out.connsAtCleanup = 0 ∧
      out.actions =
        [StopAction.setRunningFalse] ++
        (if s.serverFd ≠ -1 then [StopAction.shutdownListenFd] else []) ++
        [StopAction.joinAcceptThread, StopAction.waitForDrain,
         StopAction.closeListenFd, StopAction.unlinkSocketFile] := by
  intro s completions out hrun hstop
  unfold IPCServer.stop at hstop
  simp only [hrun, not_true_eq_false, if_false] at hstop
  cases hd : drainWait s.activeConnections completions with
  | none =>
      rw [hd] at hstop
      simp at hstop
  | some c =>
      rw [hd] at hstop
      simp only [Option.some.injEq] at hstop
      subst hstop
      exact ⟨drainWait_zero _ _ _ hd, rfl⟩

/-- Witness for C8: a running server with two in-flight handlers whose
completions arrive during the wait. -/
theorem stop_waits_for_drain_instance :
    (⟨true, 3, 2⟩ : ServerState).running = true ∧
    IPCServer.stop ⟨true, 3, 2⟩ [(), ()] =
      some ⟨[StopAction.setRunningFalse, StopAction.shutdownListenFd,
             StopAction.joinAcceptThread, StopAction.waitForDrain,
             StopAction.closeListenFd, StopAction.unlinkSocketFile], 0⟩ ∧
    (⟨[StopAction.setRunningFalse, StopAction.shutdownListenFd,
       StopAction.joinAcceptThread, StopAction.waitForDrain,
       StopAction.closeListenFd, StopAction.unlinkSocketFile], 0⟩ :
        StopResult).connsAtCleanup = 0 := by
  refine ⟨rfl, by decide, ?_⟩
  exact (stop_waits_for_drain ⟨true, 3, 2⟩ [(), ()] _ rfl (by decide)).1

/-- C4: an accepted connection whose non-empty request is denied by the
rate limiter is answered with `RATE_LIMITED` and closed, and the trace
contains neither a parse attempt nor a handler invocation. -/
theorem rate_limited_before_dispatch :
    ∀ inp : ClientInput,
      inp.bodyThrows = none → 0 < inp.recvBytes → inp.rateAllowed = false →
      handleClient inp =
        [Event.incCounter, Event.recvCall,
         Event.sendResponse
           (Response.err "Rate limit exceeded" ErrorCode.RATE_LIMITED),
         Event.closeFd, Event.decCounter, Event.notifyDrain] ∧
      Event.parseAttempt ∉ handleClient inp ∧
      ∀ m : String, Event.invokeHandler m ∉ handleClient inp := by
  intro inp hthrow hbytes hrate
  have hb : ¬ inp.recvBytes ≤ 0 := by omega
  have htrace : handleClient inp =
      [Event.incCounter, Event.recvCall,
       Event.sendResponse
         (Response.err "Rate limit exceeded" ErrorCode.RATE_LIMITED),
       Event.closeFd, Event.decCounter, Event.notifyDrain] := by
    unfold handleClient
    rw [hthrow]
    simp [hb, hrate]
  refine ⟨htrace, ?_, ?_⟩
  · rw [htrace]; decide
  · intro m
    rw [htrace]
    simp

/-- Witness for C4: a concrete denied connection. -/
theorem rate_limited_before_dispatch_instance :
    handleClient ⟨42, false, some "ping", fun _ => none, none⟩ =
      [Event.incCounter, Event.recvCall,
       Event.sendResponse
         (Response.err "Rate limit exceeded" ErrorCode.RATE_LIMITED),
       Event.closeFd, Event.decCounter, Event.notifyDrain] ∧
    Event.parseAttempt ∉
      handleClient ⟨42, false, some "ping", fun _ => none, none⟩ ∧
    ∀ m : String, Event.invokeHandler m ∉
      handleClient ⟨42, false, some "ping", fun _ => none, none⟩ :=
  rate_limited_before_dispatch ⟨42, false, some "ping", fun _ => none, none⟩
    rfl (by decide) rfl

theorem allow_in_window_bound :
    ∀ (times : List Int) (rl : RateLimiter),
      (∀ t ∈ times, t - rl.window_start_ms < 1000) →
      rl.count ≤ rl.max_per_second →
      ((rl.allowRun times).1 : Int) ≤ rl.max_per_second - rl.count := by
  intro times
  induction times with
  | nil =>
      intro rl _ hcm
      simp [RateLimiter.allowRun]
      omega
  | cons t ts ih =>
      intro rl hin hcm
      have hw : ¬ t - rl.window_start_ms ≥ 1000 := by
        have := hin t (by simp)
        omega
      by_cases hc : rl.count ≥ rl.max_per_second
      · have hstep : rl.allow t = (false, rl) := by
          simp [RateLimiter.allow, hw, hc]
        have hrest := ih rl (fun u hu => hin u (by simp [hu])) hcm
        simp [RateLimiter.allowRun, hstep]
        omega
      · have hstep : rl.allow t =
            (true, { rl with count := rl.count + 1 }) := by
          simp [RateLimiter.allow, hw]
          omega
        have hrest := ih { rl with count := rl.count + 1 }
          (fun u hu => hin u (by simp [hu])) (by simp; omega)
        simp only [RateLimiter.allowRun, hstep] at *
        simp at hrest ⊢
        omega

/-- C2: across a sequence of `allow()` calls whose observation instants
all fall inside the window anchored at `window_start` (so the count began
at the reset value 0), at most `max_per_second` calls return `true`; and
any in-window call that returns `false` leaves the count unchanged. -/
theorem rateLimiter_window_admission_bound :
    (∀ (rl : RateLimiter) (times : List Int),
        rl.count = 0 → 0 ≤ rl.max_per_second →
        (∀ t ∈ times, rl.window_start_ms ≤ t ∧ t - rl.window_start_ms < 1000) →
        ((rl.allowRun times).1 : Int) ≤ rl.max_per_second) ∧
    (∀ (rl : RateLimiter) (t : Int),
        t - rl.window_start_ms < 1000 →
        (rl.allow t).1 = false →
        ((rl.allow t).2).count = rl.count) := by
  constructor
  · intro rl times hc0 hmax hin
    have := allow_in_window_bound times rl (fun t ht => (hin t ht).2)
      (by omega)
    omega
  · intro rl t hw hfalse
    have hw' : ¬ t - rl.window_start_ms ≥ 1000 := by omega
    by_cases hc : rl.count ≥ rl.max_per_second
    · simp [RateLimiter.allow, hw', hc]
    · have hstep : rl.allow t =
          (true, { rl with count := rl.count + 1 }) := by
        simp [RateLimiter.allow, hw']
        omega
      rw [hstep] at hfalse
      simp at hfalse

/-- Witness for C2: three in-window calls against a limit of 2 admit at
most 2, and a denied call at a saturated count leaves the count at 2. -/
theorem rateLimiter_window_admission_instance :
    (((⟨2, 0, 0⟩ : RateLimiter).allowRun [0, 100, 200]).1 : Int) ≤ 2 ∧
    (((⟨2, 2, 0⟩ : RateLimiter).allow 500).2).count = 2 :=
  ⟨rateLimiter_window_admission_bound.1 ⟨2, 0, 0⟩ [0, 100, 200] rfl
      (by decide) (by decide),
   rateLimiter_window_admission_bound.2 ⟨2, 2, 0⟩ 500 (by decide) (by decide)⟩

theorem rowToAlert_insertRow (a : Alert)
    (hack0 : 0 ≤ a.acknowledged_at) (hres0 : 0 ≤ a.resolved_at)
    (hackf : a.acknowledged = false → a.acknowledged_at = 0)
    (hresf : a.resolved = false → a.resolved_at = 0) :
    rowToAlert (insertRow a) = a := by
  obtain ⟨id, ts, sev, ty, title, msg, md, ack, res, ackAt, resAt, resol⟩ := a
  simp only at hack0 hres0 hackf hresf
  cases ack <;> cases res <;>
    simp_all [rowToAlert, insertRow, intToSev_sevToInt, intToType_typeToInt]
  all_goals omega

/-- C6 (amended): after a successful `AlertStore::insert(a)`,
`AlertStore::get(a.id)` returns an alert equal to `a` in every column,
provided the `acknowledged_at`/`resolved_at` instants are not before the
epoch and are the epoch default whenever the corresponding flag is false
(the store writes `0` for them in that case and drops non-positive
instants on read); and any row whose stored metadata JSON fails to parse
is read back with empty metadata rather than an error. -/
theorem insert_get_roundtrip :
    (∀ (a : Alert) (db : AlertDB),
        (AlertStore.insert a db).1 = true →
        0 ≤ a.acknowledged_at → 0 ≤ a.resolved_at →
        (a.acknowledged = false → a.acknowledged_at = 0) →
        (a.resolved = false → a.resolved_at = 0) →
        AlertStore.get a.id (AlertStore.insert a db).2 = some a) ∧
    (∀ (r : StoredRow) (s : String),
        r.metadata = MetaCol.malformed s → (rowToAlert r).metadata = []) := by
  constructor
  · intro a db hins hack0 hres0 hackf hresf
    by_cases hdup : (db.filter (fun r => r.id = a.id)).isEmpty
    · have hstep : AlertStore.insert a db = (true, insertRow a :: db) := by
        simp [AlertStore.insert, hdup]
      rw [hstep]
      have hid : (insertRow a).id = a.id := rfl
      simp [AlertStore.get, List.find?, hid,
        rowToAlert_insertRow a hack0 hres0 hackf hresf]
    · have hstep : AlertStore.insert a db = (false, db) := by
        simp [AlertStore.insert, hdup]
      rw [hstep] at hins
      simp at hins
  · intro r s h
    simp [rowToAlert, h]

/-- Counterexample for C6: an alert with `acknowledged = false` but a
nonzero `acknowledged_at` inserts successfully, yet `get` returns it with
`acknowledged_at` reset to the epoch, so the read-back is not equal to the
inserted alert. -/
theorem insert_get_counterexample :
    (AlertStore.insert exAlert []).1 = true ∧
    AlertStore.get exAlert.id (AlertStore.insert exAlert []).2 ≠
      some exAlert ∧
    (AlertStore.get exAlert.id (AlertStore.insert exAlert []).2).map
      Alert.acknowledged_at = some 0 ∧
    exAlert.acknowledged_at = 5 := by
  refine ⟨by decide, by decide, by decide, by decide⟩

/-- Witness for C6: a fresh unacknowledged, unresolved alert round-trips
exactly, and a malformed metadata column reads back empty. -/
theorem insert_get_roundtrip_instance :
    AlertStore.get "w1"
      (AlertStore.insert
        ⟨"w1", 100, AlertSeverity.WARNING, AlertType.DISK_USAGE,
         "High disk usage", "Disk usage is at 91%",
         [("usage_percent", "91")], false, false, 0, 0, ""⟩ []).2 =
      some ⟨"w1", 100, AlertSeverity.WARNING, AlertType.DISK_USAGE,
        "High disk usage", "Disk usage is at 91%",
        [("usage_percent", "91")], false, false, 0, 0, ""⟩ ∧
    (rowToAlert
      ⟨"m1", 0, 0, 0, "", "", MetaCol.malformed "not json",
       0, 0, 0, 0, ""⟩).metadata = [] :=
  ⟨insert_get_roundtrip.1
      ⟨"w1", 100, AlertSeverity.WARNING, AlertType.DISK_USAGE,
       "High disk usage", "Disk usage is at 91%",
       [("usage_percent", "91")], false, false, 0, 0, ""⟩ []
      (by decide) (by decide) (by decide) (fun _ => rfl) (fun _ => rfl),
   insert_get_roundtrip.2
      ⟨"m1", 0, 0, 0, "", "", MetaCol.malformed "not json",
       0, 0, 0, 0, ""⟩ "not json" rfl⟩

theorem updateListLoop_spec :
    ∀ (us : List PackageUpdate) (count : Nat), count ≤ 5 →
      updateListLoop us count =
        (enumConcat ((us.filter (fun u => u.is_security)).take (5 - count)),
         count + min (5 - count) (us.filter (fun u => u.is_security)).length) := by
  intro us
  induction us with
  | nil =>
      intro count h
      simp [updateListLoop, enumConcat]
  | cons u rest ih =>
      intro count h
      by_cases hs : u.is_security = true
      · by_cases hc : count < 5
        · have hrec := ih (count + 1) (by omega)
          have h54 : 5 - count = (5 - (count + 1)) + 1 := by omega
          simp only [updateListLoop, hs, hc, and_self, if_true, hrec,
            List.filter, h54, List.take_succ_cons, enumConcat, true_and]
          rw [Prod.mk.injEq]
          refine ⟨rfl, ?_⟩
          simp only [List.length_cons]
          omega
        · have hc5 : count = 5 := by omega
          subst hc5
          have hrec := ih 5 (by omega)
          simp only [updateListLoop, hs, hc, and_false, if_false, hrec,
            List.filter, true_and]
          simp
      · have hrec := ih count h
        simp only [Bool.not_eq_true] at hs
        simp [updateListLoop, hs, List.filter, hrec]

/-- C7 (amended): whenever the snapshot has `security_updates > 0`, the
security block of `check_thresholds` issues exactly one
`create_smart_alert` call of severity WARNING and type SECURITY_UPDATE;
the enumerated update list — the first 5 security entries of the cached
updates, with an `"... and N more"` tail when fewer were listed than the
count — is carried in the AI-analysis context string, while the metadata of the alert holds only the count. -/
theorem security_alert_emission_spec :
    ∀ (sec : Int) (updates : List PackageUpdate),
      0 < sec →
      checkThresholdsSecurity sec updates =
        [{ severity := AlertSeverity.WARNING
           type := AlertType.SECURITY_UPDATE
           title := "Security updates available"
           message := toString sec ++ " security update(s) available"
           aiContext := toString sec ++ " security updates available:\n" ++
             (enumConcat ((updates.filter (fun u => u.is_security)).take 5) ++
              (if ((min 5 (updates.filter (fun u => u.is_security)).length : Int)) < sec then
                "... and " ++
                  toString (sec - (min 5 (updates.filter (fun u => u.is_security)).length : Int)) ++
                  " more\n"
               else ""))
           metadata := [("count", toString sec)] }] := by
  intro sec updates hpos
  have hloop := updateListLoop_spec updates 0 (by omega)
  simp only [Nat.sub_zero, Nat.zero_add] at hloop
  by_cases htail :
      ((min 5 (updates.filter (fun u => u.is_security)).length : Int)) < sec
  · simp [checkThresholdsSecurity, hpos, hloop, htail, String.append_assoc]
  · simp [checkThresholdsSecurity, hpos, hloop, htail, String.append_assoc]

/-- Counterexample for C7: with 7 cached security updates the emitted
metadata of the emitted primary alert is exactly `ai_enhanced = pending, count = 7`;
the enumerated update list (85 characters) is not held by — nor even a
substring of — any metadata value, and lives in the AI context string
instead. -/
theorem security_alert_metadata_counterexample :
    checkThresholdsSecurity 7 exUpdates = [exCall] ∧
    (createSmartAlert ⟨true, true⟩ "0123456789abcdef" exCall.severity
        exCall.type exCall.title exCall.message exCall.aiContext
        exCall.metadata).primary.metadata =
      [("ai_enhanced", "pending"), ("count", "7")] ∧
    exCall.aiContext = "7 security updates available:\n" ++ exEnum ∧
    (¬ ∃ pre post : String, "pending" = pre ++ exEnum ++ post) ∧
    (¬ ∃ pre post : String, "7" = pre ++ exEnum ++ post) := by
  refine ⟨by decide, by decide, by decide, ?_, ?_⟩
  · rintro ⟨pre, post, h⟩
    have hlen := congrArg String.length h
    rw [String.length_append, String.length_append] at hlen
    have h1 : ("pending" : String).length = 7 := by decide
    have h2 : exEnum.length = 85 := by decide
    omega
  · rintro ⟨pre, post, h⟩
    have hlen := congrArg String.length h
    rw [String.length_append, String.length_append] at hlen
    have h1 : ("7" : String).length = 1 := by decide
    have h2 : exEnum.length = 85 := by decide
    omega

/-- Witness for C7: the amended emission applied to the concrete cache of
seven security updates. -/
theorem security_alert_emission_instance :
    checkThresholdsSecurity 7 exUpdates =
      [{ severity := AlertSeverity.WARNING
         type := AlertType.SECURITY_UPDATE
         title := "Security updates available"
         message := toString (7 : Int) ++ " security update(s) available"
         aiContext := toString (7 : Int) ++ " security updates available:\n" ++
           (enumConcat ((exUpdates.filter (fun u => u.is_security)).take 5) ++
            (if ((min 5 (exUpdates.filter (fun u => u.is_security)).length : Int)) < 7 then
              "... and " ++
                toString ((7 : Int) - (min 5 (exUpdates.filter (fun u => u.is_security)).length : Int)) ++
                " more\n"
             else ""))
         metadata := [("count", toString (7 : Int))] }] :=
  security_alert_emission_spec 7 exUpdates (by decide)

theorem lookup_mapSet_self (l : List (String × String)) (k v : String) :
    List.lookup k (mapSet l k v) = some v := by
  induction l with
  | nil => simp [mapSet, List.lookup]
  | cons a rest ih =>
      obtain ⟨a1, a2⟩ := a
      by_cases h1 : k.data < a1.data
      · simp [mapSet, h1, List.lookup]
      · by_cases h2 : k = a1
        · simp [mapSet, h1, h2, List.lookup]
        · have hne : (k == a1) = false := by
            simp [h2]
          simp [mapSet, h1, h2, List.lookup, hne, ih]

theorem lookup_mapSet_ne (l : List (String × String)) (k k' v : String)
    (h : k ≠ k') : List.lookup k (mapSet l k' v) = List.lookup k l := by
  have hne : (k == k') = false := by simp [h]
  induction l with
  | nil => simp [mapSet, List.lookup, hne]
  | cons a rest ih =>
      obtain ⟨a1, a2⟩ := a
      by_cases h1 : k'.data < a1.data
      · simp [mapSet, h1, List.lookup, hne]
      · by_cases h2 : k' = a1
        · subst h2
          simp [mapSet, h1, List.lookup, hne]
        · by_cases h3 : k = a1
          · simp [mapSet, h1, h2, List.lookup, h3]
          · have hne3 : (k == a1) = false := by simp [h3]
            simp [mapSet, h1, h2, List.lookup, hne3, ih]

/-- C3 (amended): `create_smart_alert` creates the primary alert
synchronously with `ai_enhanced = "pending"` added to its metadata; the
detached background task is launched exactly when the returned id is
nonempty, the engine pointer is non-null and `is_loaded()` holds; when
launched, the task performs no `infer_sync` call at all — it directly
creates the secondary alert of type AI_ANALYSIS and severity INFO whose
metadata references the primary id under `parent_alert_id`. -/
theorem createSmartAlert_background_spec :
    ∀ (env : LLMEnv) (createdId : String) (sev : AlertSeverity)
      (ty : AlertType) (title msg ctx : String) (md : List (String × String)),
      (createSmartAlert env createdId sev ty title msg ctx md).primary =
        { severity := sev, type := ty, title := title, message := msg,
          metadata := mapSet md "ai_enhanced" "pending" } ∧
      List.lookup "ai_enhanced"
          (createSmartAlert env createdId sev ty title msg ctx md).primary.metadata =
        some "pending" ∧
      ((createSmartAlert env createdId sev ty title msg ctx md).launched = true ↔
        (createdId ≠ "" ∧ env.present = true ∧ env.loaded = true)) ∧
      ((createSmartAlert env createdId sev ty title msg ctx md).launched = false →
        (createSmartAlert env createdId sev ty title msg ctx md).background = []) ∧
      ((createSmartAlert env createdId sev ty title msg ctx md).launched = true →
        (createSmartAlert env createdId sev ty title msg ctx md).background =
          [MonitorEvent.createAlert
            { severity := AlertSeverity.INFO, type := AlertType.AI_ANALYSIS,
              title := "AI analysis: " ++ title,
              message := "Automated analysis for alert: " ++ createdId.take 8 ++
                "\n\nContext analyzed:\n" ++ ctx,
              metadata := mapSet (mapSet (mapSet [] "parent_alert_id" createdId)
                "ai_enhanced" "true") "analysis_context" ctx }] ∧
        List.lookup "parent_alert_id"
            (mapSet (mapSet (mapSet [] "parent_alert_id" createdId)
              "ai_enhanced" "true") "analysis_context" ctx) =
          some createdId) ∧
      (∀ e ∈ (createSmartAlert env createdId sev ty title msg ctx md).background,
        e.isInferSync = false) := by
  intro env createdId sev ty title msg ctx md
  have hlook : List.lookup "parent_alert_id"
      (mapSet (mapSet (mapSet [] "parent_alert_id" createdId)
        "ai_enhanced" "true") "analysis_context" ctx) = some createdId := by
    rw [lookup_mapSet_ne _ _ _ _ (by decide),
        lookup_mapSet_ne _ _ _ _ (by decide),
        lookup_mapSet_self]
  by_cases hskip : createdId = "" ∨ env.present = false ∨ env.loaded = false
  · have hres : createSmartAlert env createdId sev ty title msg ctx md =
        { primary :=
            { severity := sev, type := ty, title := title,
              message := msg, metadata := mapSet md "ai_enhanced" "pending" },
          launched := false, background := [] } := by
      simp only [createSmartAlert]
      rw [if_pos hskip]
    rw [hres]
    refine ⟨rfl, lookup_mapSet_self md _ _, ?_, fun _ => rfl, ?_, ?_⟩
    · simp only [Bool.false_eq_true, false_iff]
      rintro ⟨h1, h2, h3⟩
      rcases hskip with h | h | h
      · exact h1 h
      · rw [h2] at h
        simp at h
      · rw [h3] at h
        simp at h
    · intro h
      simp at h
    · intro e he
      simp at he
  · have hres : createSmartAlert env createdId sev ty title msg ctx md =
        { primary :=
            { severity := sev, type := ty, title := title,
              message := msg, metadata := mapSet md "ai_enhanced" "pending" },
          launched := true,
          background :=
            [MonitorEvent.createAlert
              { severity := AlertSeverity.INFO, type := AlertType.AI_ANALYSIS,
                title := "AI analysis: " ++ title,
                message := "Automated analysis for alert: " ++ createdId.take 8 ++
                  "\n\nContext analyzed:\n" ++ ctx,
                metadata := mapSet (mapSet (mapSet [] "parent_alert_id" createdId)
                  "ai_enhanced" "true") "analysis_context" ctx }] } := by
      simp only [createSmartAlert]
      rw [if_neg hskip]
    push_neg at hskip
    obtain ⟨h1, h2, h3⟩ := hskip
    rw [hres]
    refine ⟨rfl, lookup_mapSet_self md _ _, ?_, ?_, ?_, ?_⟩
    · simp only [true_iff]
      refine ⟨h1, ?_, ?_⟩
      · cases hp : env.present
        · exact absurd hp h2
        · rfl
      · cases hp : env.loaded
        · exact absurd hp h3
        · rfl
    · intro h
      simp at h
    · intro _
      exact ⟨rfl, hlook⟩
    · intro e he
      simp only [List.mem_singleton] at he
      rw [he]
      rfl

/-- Counterexample for C3: with the engine present and loaded the
background task is launched, yet its complete action trace is a single
secondary-alert creation and contains no `infer_sync` call at all — the
secondary alert is created without any inference, so the launched task
neither builds a prompt nor calls `infer_sync`. -/
theorem createSmartAlert_no_infer_counterexample :
    exSmartBg.launched = true ∧
    exSmartBg.background = [MonitorEvent.createAlert exSecondary] ∧
    exSmartBg.background.countP (fun e => e.isInferSync) = 0 := by
  refine ⟨by decide, by decide, by decide⟩

/-- Witness for C3 (amended): a concrete launched smart alert whose
background trace is the secondary creation referencing the primary id. -/
theorem createSmartAlert_background_instance :
    (createSmartAlert ⟨true, true⟩ "0011223344556677" AlertSeverity.WARNING
        AlertType.MEMORY_USAGE "High memory usage" "m" "ctx" []).background =
      [MonitorEvent.createAlert
        { severity := AlertSeverity.INFO, type := AlertType.AI_ANALYSIS,
          title := "AI analysis: " ++ "High memory usage",
          message := "Automated analysis for alert: " ++
            ("0011223344556677" : String).take 8 ++
            "\n\nContext analyzed:\n" ++ "ctx",
          metadata := mapSet (mapSet (mapSet [] "parent_alert_id"
            "0011223344556677") "ai_enhanced" "true") "analysis_context"
            "ctx" }] ∧
    List.lookup "parent_alert_id"
        (mapSet (mapSet (mapSet [] "parent_alert_id" "0011223344556677")
          "ai_enhanced" "true") "analysis_context" "ctx") =
      some "0011223344556677" :=
  (createSmartAlert_background_spec ⟨true, true⟩ "0011223344556677"
      AlertSeverity.WARNING AlertType.MEMORY_USAGE "High memory usage"
      "m" "ctx" []).2.2.2.2.1 (by decide)

/-- C1: two `AlertManager::create` calls with the same
`(severity, type, title)`, the triple fresh in the dedup map, the new id
not colliding in the store, and the second call within the 5-minute dedup
window of the first: the second call returns the id of the first, inserts
no row, fires no callbacks, and `count_active()` grows by at most 1 across
the two calls. -/
theorem create_dedup_window_spec :
    ∀ (st : ManagerState) (t1 t2 : Int) (id1 id2 : String)
      (sev : AlertSeverity) (ty : AlertType) (title m1 m2 : String)
      (md1 md2 : List (String × String)),
      (∀ e ∈ st.recent, e.1 ≠ dedupKey sev ty title) →
      (st.db.filter (fun r => r.id = id1)).isEmpty = true →
      t1 ≤ t2 → t2 - t1 ≤ dedupWindowSec →
      (AlertManager.create
          (AlertManager.create st t1 id1 sev ty title m1 md1).state
          t2 id2 sev ty title m2 md2).id =
        (AlertManager.create st t1 id1 sev ty title m1 md1).id ∧
      (AlertManager.create
          (AlertManager.create st t1 id1 sev ty title m1 md1).state
          t2 id2 sev ty title m2 md2).state.db =
        (AlertManager.create st t1 id1 sev ty title m1 md1).state.db ∧
      (AlertManager.create
          (AlertManager.create st t1 id1 sev ty title m1 md1).state
          t2 id2 sev ty title m2 md2).fired = [] ∧
      AlertStore.countActive
          (AlertManager.create
            (AlertManager.create st t1 id1 sev ty title m1 md1).state
            t2 id2 sev ty title m2 md2).state.db ≤
        AlertStore.countActive st.db + 1 := by
  intro st t1 t2 id1 id2 sev ty title m1 m2 md1 md2 hfresh hid ht12 hwin
  have hfind1 : ((st.recent.filter
      (fun e => t1 - e.2.1 ≤ dedupWindowSec)).find?
        (fun e => e.1 = dedupKey sev ty title)) = none := by
    rw [List.find?_eq_none]
    intro e he
    have := hfresh e (List.mem_of_mem_filter he)
    simp [this]
  have hc1 : AlertManager.create st t1 id1 sev ty title m1 md1 =
      { id := id1,
        state :=
          { db := insertRow
              { id := id1, timestamp := t1, severity := sev, type := ty,
                title := title, message := m1, metadata := md1,
                acknowledged := false, resolved := false,
                acknowledged_at := 0, resolved_at := 0,
                resolution := "" } :: st.db,
            recent := (dedupKey sev ty title, t1, id1) ::
              st.recent.filter (fun e => t1 - e.2.1 ≤ dedupWindowSec) },
        fired :=
          [{ id := id1, timestamp := t1, severity := sev, type := ty,
             title := title, message := m1, metadata := md1,
             acknowledged := false, resolved := false,
             acknowledged_at := 0, resolved_at := 0, resolution := "" }] } := by
    simp only [AlertManager.create, hfind1, AlertStore.insert, hid, if_true]
  rw [hc1]
  have hkeep : (t2 - t1 ≤ dedupWindowSec) := hwin
  have hc2 : AlertManager.create
      { db := insertRow
          { id := id1, timestamp := t1, severity := sev, type := ty,
            title := title, message := m1, metadata := md1,
            acknowledged := false, resolved := false,
            acknowledged_at := 0, resolved_at := 0,
            resolution := "" } :: st.db,
        recent := (dedupKey sev ty title, t1, id1) ::
          st.recent.filter (fun e => t1 - e.2.1 ≤ dedupWindowSec) }
      t2 id2 sev ty title m2 md2 =
      { id := id1,
        state :=
          { db := insertRow
              { id := id1, timestamp := t1, severity := sev, type := ty,
                title := title, message := m1, metadata := md1,
                acknowledged := false, resolved := false,
                acknowledged_at := 0, resolved_at := 0,
                resolution := "" } :: st.db,
            recent := (dedupKey sev ty title, t1, id1) ::
              (st.recent.filter
                (fun e => t1 - e.2.1 ≤ dedupWindowSec)).filter
                  (fun e => t2 - e.2.1 ≤ dedupWindowSec) },
        fired := [] } := by
    simp only [AlertManager.create, List.filter, List.find?]
    simp [hkeep]
  rw [hc2]
  refine ⟨rfl, rfl, rfl, ?_⟩
  simp [AlertStore.countActive, List.filter, insertRow]

/-- Witness for C1: two creations of the same warning 10 seconds apart on
a fresh manager. -/
theorem create_dedup_window_instance :
    (AlertManager.create
        (AlertManager.create ⟨[], []⟩ 0 "aaa" AlertSeverity.WARNING
          AlertType.DISK_USAGE "High disk usage" "msg1" []).state
        10 "bbb" AlertSeverity.WARNING AlertType.DISK_USAGE "High disk usage"
        "msg2" []).id =
      (AlertManager.create ⟨[], []⟩ 0 "aaa" AlertSeverity.WARNING
        AlertType.DISK_USAGE "High disk usage" "msg1" []).id ∧
    (AlertManager.create
        (AlertManager.create ⟨[], []⟩ 0 "aaa" AlertSeverity.WARNING
          AlertType.DISK_USAGE "High disk usage" "msg1" []).state
        10 "bbb" AlertSeverity.WARNING AlertType.DISK_USAGE "High disk usage"
        "msg2" []).state.db =
      (AlertManager.create ⟨[], []⟩ 0 "aaa" AlertSeverity.WARNING
        AlertType.DISK_USAGE "High disk usage" "msg1" []).state.db ∧
    (AlertManager.create
        (AlertManager.create ⟨[], []⟩ 0 "aaa" AlertSeverity.WARNING
          AlertType.DISK_USAGE "High disk usage" "msg1" []).state
        10 "bbb" AlertSeverity.WARNING AlertType.DISK_USAGE "High disk usage"
        "msg2" []).fired = [] ∧
    AlertStore.countActive
        (AlertManager.create
          (AlertManager.create ⟨[], []⟩ 0 "aaa" AlertSeverity.WARNING
            AlertType.DISK_USAGE "High disk usage" "msg1" []).state
          10 "bbb" AlertSeverity.WARNING AlertType.DISK_USAGE "High disk usage"
          "msg2" []).state.db ≤
      AlertStore.countActive ([] : AlertDB) + 1 :=
  create_dedup_window_spec ⟨[], []⟩ 0 10 "aaa" "bbb" AlertSeverity.WARNING
    AlertType.DISK_USAGE "High disk usage" "msg1" "msg2" [] []
    (fun e he => absurd he (List.not_mem_nil e)) rfl (by decide) (by decide)

end Cortexd
